import Mathlib

/-!
Shallow embedding of `build-database.py` (PoC-in-GitHub downloader).

The script keeps a local mirror of exploit archives: it parses CVE
identifiers from feed filenames, resolves a repository's default branch by
scraping its GitHub page (with a sidecar cache file), decides staleness by
comparing the archive's mtime with the feed's `updated_at` timestamp,
downloads the branch zip, and stamps the file's mtime/atime with that
timestamp.  External effects (filesystem, HTTP) are modelled explicitly:
the filesystem is a function from paths to file records, and each network
interaction is an input parameter (the page text for the branch scrape, a
chunked response for the archive GET).
-/

/-- Python exception kinds raised by the script. -/
inductive PyErr where
  | valueError
  | fileNotFound
  | emptyRepository
  | runtimeError
  | transferError
deriving DecidableEq, Repr

instance {ε α : Type} [DecidableEq ε] [DecidableEq α] : DecidableEq (Except ε α) := fun a b =>
  match a, b with
  | .ok x, .ok y =>
    if h : x = y then .isTrue (by rw [h]) else .isFalse (by intro hc; cases hc; exact h rfl)
  | .error x, .error y =>
    if h : x = y then .isTrue (by rw [h]) else .isFalse (by intro hc; cases hc; exact h rfl)
  | .ok _, .error _ => .isFalse (by intro hc; cases hc)
  | .error _, .ok _ => .isFalse (by intro hc; cases hc)

/-- A Python value that is either an `int` or a `str`; the `CVE` dataclass
declares `int` fields but `CVE.fromstr` actually stores the regex group
strings, so both runtime types occur. -/
inductive PyVal where
  | int (n : Int)
  | str (s : String)
deriving DecidableEq, Repr

/-- The `CVE` dataclass: `year` and `id`.  Dataclass equality is structural
on the two fields (and distinguishes `int` from `str`, as Python does). -/
structure CVE where
  year : PyVal
  id : PyVal
deriving DecidableEq, Repr

/-- Left-pad a string with zeros to width `w`. -/
def zfill (w : Nat) (s : String) : String :=
  if w ≤ s.length then s else String.mk (List.replicate (w - s.length) '0') ++ s

/-- Interpolation of a value with no format spec, as in `f'... {self.year} ...'`:
`str()` of the value. -/
def pyFormatPlain (v : PyVal) : String :=
  match v with
  | .int n => toString n
  | .str s => s

/-- Interpolation with format spec `04`, as in `f'... {self.id:04}'`:
sign-aware zero padding to width 4 for ints; a `str` raises `ValueError`
(zero padding is not allowed for strings). -/
def pyFormat04 (v : PyVal) : Except PyErr String :=
  match v with
  | .int n =>
    if n < 0 then .ok ("-" ++ zfill 3 (toString (-n)))
    else .ok (zfill 4 (toString n))
  | .str _ => .error .valueError

/-- `CVE.__str__`: `f'CVE-{self.year}-{self.id:04}'`. -/
def CVE.toStr (c : CVE) : Except PyErr String :=
  match pyFormat04 c.id with
  | .ok idStr => .ok ("CVE-" ++ pyFormatPlain c.year ++ "-" ++ idStr)
  | .error err => .error err

/-- Maximal leading run of decimal digits (the greedy `\d+`), returning the
run and the remaining characters. -/
def digitRun : List Char → List Char × List Char
  | [] => ([], [])
  | c :: cs =>
    if c.isDigit then
      let p := digitRun cs
      (c :: p.1, p.2)
    else ([], c :: cs)

/-- Matching of the regex `^CVE-(?P<year>\d+)-(?P<id>\d+)` at the start of
the character list (with `re.search` and no MULTILINE flag, the `^` anchor
restricts the search to position 0).  Returns the two captured groups. -/
def matchCVEAt (cs : List Char) : Option (String × String) :=
  match cs with
  | 'C' :: 'V' :: 'E' :: '-' :: rest =>
    let p1 := digitRun rest
    if p1.1.isEmpty then none
    else
      match p1.2 with
      | '-' :: rest2 =>
        let p2 := digitRun rest2
        if p2.1.isEmpty then none
        else some (String.mk p1.1, String.mk p2.1)
      | _ => none
  | _ => none

/-- `CVE.fromstr`: search the anchored pattern; on failure raise
`ValueError`; on success build `cls(**m.groupdict())` — note the groups are
strings, so the constructed CVE carries `str` fields. -/
def CVE.fromstr (s : String) : Except PyErr CVE :=
  match matchCVEAt s.data with
  | some g => .ok ⟨.str g.1, .str g.2⟩
  | none => .error .valueError

/-- Whether the pattern `CVE-<digits>-<digits>` occurs at some position of
the string (what an unanchored `re.search` would test). -/
def cvePatternSomewhere (s : String) : Bool :=
  s.data.tails.any (fun t => (matchCVEAt t).isSome)

/-- A file on disk: its content and its modification/access times
(seconds). -/
structure FileRec where
  content : String
  mtime : Int
  atime : Int
deriving DecidableEq, Repr

/-- The filesystem: a map from paths to files. -/
abbrev FS := String → Option FileRec

/-- Writing a file (mode `wb`/`wt`): truncate/create at path `p`. -/
def fsWrite (fs : FS) (p : String) (f : FileRec) : FS :=
  fun q => if q = p then some f else fs q

/-- `os.utime(p, (t, t))`: set atime and mtime; `FileNotFoundError` if the
path does not exist. -/
def os_utime (fs : FS) (p : String) (t : Int) : Except PyErr FS :=
  match fs p with
  | none => .error .fileNotFound
  | some f => .ok (fsWrite fs p ⟨f.content, t, t⟩)

/-- Python's `str.strip()`: drop leading and trailing whitespace. -/
def pyStrip (s : String) : String :=
  String.mk (((s.data.dropWhile Char.isWhitespace).reverse.dropWhile Char.isWhitespace).reverse)

/-- `f.readline().strip()` on a file's content: first line, whitespace
trimmed. -/
def firstLineTrim (s : String) : String :=
  pyStrip (String.mk (s.data.takeWhile (fun c => c ≠ '\n')))

/-- Maximal run of characters other than `/` and `"` (the greedy
`[^/"]+`). -/
def branchRun : List Char → List Char × List Char
  | [] => ([], [])
  | c :: cs =>
    if c = '/' ∨ c = '\"' then ([], c :: cs)
    else
      let p := branchRun cs
      (c :: p.1, p.2)

/-- The literal part of the scraping pattern
`href="/{login}/{name}/commits/`. -/
def hrefPattern (login name : String) : List Char :=
  ("href=\"/" ++ login ++ "/" ++ name ++ "/commits/").data

/-- Try to match the commits-link pattern at the current position: the
literal part, then a nonempty `[^/"]+` capture, then a closing quote. -/
def tryCommitsAt (pat cs : List Char) : Option String :=
  if pat.isPrefixOf cs then
    let rest := cs.drop pat.length
    let p := branchRun rest
    match p.1, p.2 with
    | [], _ => none
    | run, '\"' :: _ => some (String.mk run)
    | _, _ => none
  else none

/-- Leftmost match of the commits-link pattern in the page text. -/
def scanAux (pat : List Char) : List Char → Option String
  | [] => tryCommitsAt pat []
  | c :: cs =>
    match tryCommitsAt pat (c :: cs) with
    | some b => some b
    | none => scanAux pat cs

/-- Substring test, as Python's `needle in text`. -/
def containsSub (needle : List Char) : List Char → Bool
  | [] => needle.isEmpty
  | c :: cs => needle.isPrefixOf (c :: cs) || containsSub needle cs

/-- `Exploit.get_branch_name_from_github` applied to the fetched page text:
scan for the commits link; if absent, raise `EmptyRepository` when the page
contains the empty-repository marker, otherwise `RuntimeError`.  (The `\b`
word boundary of the original regex is elided; `login` is `re.escape`d in
the source so both behave as literal text.) -/
def get_branch_name_from_github (login name text : String) : Except PyErr String :=
  match scanAux (hrefPattern login name) text.data with
  | some branch => .ok branch
  | none =>
    if containsSub "This repository is empty.".data text.data then .error .emptyRepository
    else .error .runtimeError

/-- A UTC timestamp as parsed by `strptime(..., '%Y-%m-%dT%H:%M:%SZ')`. -/
structure UtcTime where
  year : Nat
  month : Nat
  day : Nat
  hour : Nat
  minute : Nat
  second : Nat
deriving DecidableEq, Repr

/-- Days from 1970-01-01 to the given civil date (proleptic Gregorian,
standard era-based computation). -/
def daysFromCivil (y m d : Nat) : Int :=
  let yAdj := if m ≤ 2 then y - 1 else y
  let era := yAdj / 400
  let yoe := yAdj - era * 400
  let mp := if 2 < m then m - 3 else m + 9
  let doy := (153 * mp + 2) / 5 + d - 1
  let doe := yoe * 365 + yoe / 4 + doy - yoe / 100
  (era * 146097 + doe : Int) - 719468

/-- Unix seconds of a UTC timestamp (`strftime('%s')`, taking the host
epoch rendering as UTC). -/
def utcToUnix (t : UtcTime) : Int :=
  daysFromCivil t.year t.month t.day * 86400 + t.hour * 3600 + t.minute * 60 + t.second

/-- The `owner` attribute map of a feed record (field used: `login`). -/
structure Owner where
  login : String
deriving DecidableEq, Repr

/-- The fields of one feed record that the script reads. -/
structure RepoData where
  full_name : String
  owner : Owner
  name : String
  html_url : String
  updated_at : UtcTime
deriving DecidableEq, Repr

/-- The `Exploit` dataclass: a CVE plus one feed record. -/
structure Exploit where
  cve : CVE
  data : RepoData
deriving DecidableEq, Repr

/-- `Exploit.login`: `self.data['owner']['login']`. -/
def Exploit.login (e : Exploit) : String :=
  e.data.owner.login

/-- `Exploit.url`: `self.data['html_url']`. -/
def Exploit.url (e : Exploit) : String :=
  e.data.html_url

/-- `os.path.dirname`: everything before the last `/`, or empty. -/
def dirname (p : String) : String :=
  match (p.data.reverse.dropWhile (fun c => c ≠ '/')) with
  | [] => ""
  | _ :: rest => String.mk rest.reverse

/-- `os.path.join` for one relative component. -/
def pathJoin (a b : String) : String :=
  if a = "" then b else a ++ "/" ++ b

/-- `Exploit.output_file`:
`os.path.join(str(self.cve.year), str(self.cve), self.login() + '.zip')`.
`str(self.cve)` raises `ValueError` when the CVE carries `str` fields. -/
def Exploit.output_file (e : Exploit) : Except PyErr String :=
  match CVE.toStr e.cve with
  | .ok cveStr => .ok (pathJoin (pathJoin (pyFormatPlain e.cve.year) cveStr) (e.login ++ ".zip"))
  | .error err => .error err

/-- The sidecar cache path computed in `get_branch_name`:
`os.path.join(os.path.dirname(self.output_file()), f'.{self.login()}.branch')`. -/
def Exploit.cached_branchname (e : Exploit) : Except PyErr String :=
  match e.output_file with
  | .ok out => .ok (pathJoin (dirname out) ("." ++ e.login ++ ".branch"))
  | .error err => .error err

/-- `Exploit.updated_at`: the feed's ISO-8601 timestamp as Unix seconds. -/
def Exploit.updated_at (e : Exploit) : Int :=
  utcToUnix e.data.updated_at

/-- Result of `get_branch_name`: the returned value or the raised
exception, the filesystem afterwards, and whether the GitHub page was
fetched. -/
structure BranchOut where
  result : Except PyErr String
  fs : FS
  webFetched : Bool

/-- `Exploit.get_branch_name` over page text `text`: return the sidecar's
first line when the cache file exists; otherwise scrape the page and, on
success, persist the branch (plus newline) to the sidecar. -/
def Exploit.get_branch_name (e : Exploit) (fs : FS) (text : String) (now : Int) : BranchOut :=
  match e.cached_branchname with
  | .error err => ⟨.error err, fs, false⟩
  | .ok side =>
    match fs side with
    | some f => ⟨.ok (firstLineTrim f.content), fs, false⟩
    | none =>
      match get_branch_name_from_github e.login e.data.name text with
      | .ok branch => ⟨.ok branch, fsWrite fs side ⟨branch ++ "\n", now, now⟩, true⟩
      | .error err => ⟨.error err, fs, true⟩

/-- The archive GET of `download_zip`: its HTTP status (never read by the
script), the chunks yielded by `iter_content` before any failure, and
whether the stream then raises a transfer error. -/
structure ZipResponse where
  status : Nat
  chunks : List String
  breaks : Bool
deriving DecidableEq, Repr

/-- Result of `download_zip`. -/
structure DownOut where
  result : Except PyErr Unit
  fs : FS
  webFetched : Bool

/-- `Exploit.download_zip output_file`: resolve the branch, stream the
archive body directly into `output_file`, catch only `EmptyRepository`
(writing the placeholder instead), then stamp atime/mtime with
`updated_at`.  Any other exception propagates before the stamp. -/
def Exploit.download_zip (e : Exploit) (fs : FS) (output_file : String) (text : String)
    (resp : ZipResponse) (connectFails : Bool) (now : Int) : DownOut :=
  let g := e.get_branch_name fs text now
  match g.result with
  | .ok _branch =>
    if connectFails then ⟨.error .transferError, g.fs, g.webFetched⟩
    else
      let fs1 := fsWrite g.fs output_file ⟨String.join resp.chunks, now, now⟩
      if resp.breaks then ⟨.error .transferError, fs1, g.webFetched⟩
      else
        match os_utime fs1 output_file e.updated_at with
        | .ok fs2 => ⟨.ok (), fs2, g.webFetched⟩
        | .error err => ⟨.error err, fs1, g.webFetched⟩
  | .error .emptyRepository =>
    let fs1 := fsWrite g.fs output_file ⟨"Empty repository", now, now⟩
    match os_utime fs1 output_file e.updated_at with
    | .ok fs2 => ⟨.ok (), fs2, g.webFetched⟩
    | .error err => ⟨.error err, fs1, g.webFetched⟩
  | .error err => ⟨.error err, g.fs, g.webFetched⟩

/-- The `should_download` decision of `refresh_zip`: download when the
archive is missing, else exactly when its mtime is strictly earlier than
`updated_at`. -/
def needsRefreshCheck (fs : FS) (out : String) (u : Int) : Bool :=
  match fs out with
  | some f => decide (f.mtime < u)
  | none => true

/-- Result of `refresh_zip`: outcome, filesystem, whether a download was
performed, whether the GitHub page was fetched. -/
structure RefreshOut where
  result : Except PyErr Unit
  fs : FS
  downloaded : Bool
  webFetched : Bool

/-- `Exploit.refresh_zip`: compute the output path (which may raise),
apply the freshness check, and download when needed.  (The idempotent
`os.makedirs` on the parent directory is not modelled; directories are
implicit in path keys.) -/
def Exploit.refresh_zip (e : Exploit) (fs : FS) (text : String) (resp : ZipResponse)
    (connectFails : Bool) (now : Int) : RefreshOut :=
  match e.output_file with
  | .error err => ⟨.error err, fs, false, false⟩
  | .ok out =>
    if needsRefreshCheck fs out e.updated_at then
      let d := e.download_zip fs out text resp connectFails now
      ⟨d.result, d.fs, true, d.webFetched⟩
    else ⟨.ok (), fs, false, false⟩

/-- One (identifier, descriptor) pair of the driver loop, together with the
external inputs its processing consumes. -/
structure PocInput where
  e : Exploit
  text : String
  resp : ZipResponse
  connectFails : Bool

/-- One iteration of the driver loop: `poc.refresh_zip()` inside
`try/except`; every exception is caught, logged (second component), and
the loop continues. -/
def driverStep (fs : FS) (p : PocInput) (now : Int) : FS × Bool :=
  let r := p.e.refresh_zip fs p.text p.resp p.connectFails now
  match r.result with
  | .ok _ => (r.fs, false)
  | .error _ => (r.fs, true)

/-- The driver loop over all pairs, returning the final filesystem and the
per-pair logged-an-error flags in order. -/
def processPocs (fs : FS) (now : Int) : List PocInput → FS × List Bool
  | [] => (fs, [])
  | p :: rest =>
    let s := driverStep fs p now
    let t := processPocs s.1 now rest
    (t.1, s.2 :: t.2)

/-- `main` after argument parsing: when the top-level setup (chdir, feed
update, record loading) succeeds, run the loop — whose body catches every
per-pair exception — and return exit code 0; a top-level failure returns
exit code 1. -/
def mainRun (setupOk : Bool) (fs : FS) (pocs : List PocInput) (now : Int) :
    FS × List Bool × Nat :=
  if setupOk then
    let t := processPocs fs now pocs
    (t.1, t.2, 0)
  else (fs, [], 1)

/-! ### Concrete fixtures used by witnesses and counterexamples -/

/-- A descriptor with int-typed CVE fields, as in the spec's example
scenario. -/
def wExploit : Exploit :=
  ⟨⟨.int 2021, .int 34527⟩,
   ⟨"acme/rpc-leak", ⟨"acme"⟩, "rpc-leak", "https://github.com/acme/rpc-leak",
    ⟨2021, 7, 1, 12, 0, 0⟩⟩⟩

/-- The same repository with a later feed timestamp. -/
def wExploit2 : Exploit :=
  ⟨⟨.int 2021, .int 34527⟩,
   ⟨"acme/rpc-leak", ⟨"acme"⟩, "rpc-leak", "https://github.com/acme/rpc-leak",
    ⟨2021, 7, 2, 12, 0, 0⟩⟩⟩

/-- Archive path of `wExploit`. -/
def wOut : String := "2021/CVE-2021-34527/acme.zip"

/-- Sidecar path of `wExploit`. -/
def wSide : String := "2021/CVE-2021-34527/.acme.branch"

/-- A GitHub landing page holding the commits link for `wExploit`. -/
def wPage : String := "<a href=\"/acme/rpc-leak/commits/main\">"

/-- An empty filesystem. -/
def wFsEmpty : FS := fun _ => none

/-- A filesystem with a stale prior archive and a cached sidecar for
`wExploit`. -/
def wFsPrior : FS := fun q =>
  if q = wOut then some ⟨"OLDZIP", 50, 50⟩
  else if q = wSide then some ⟨"main\n", 0, 0⟩
  else none

/-- A filesystem whose archive mtime equals `wExploit.updated_at`
exactly. -/
def wFsEqual : FS := fun q =>
  if q = wOut then some ⟨"zipdata", 1625140800, 1625140800⟩ else none

/-- A second descriptor for the driver batch. -/
def wExploitB : Exploit :=
  ⟨⟨.int 2021, .int 2⟩, ⟨"bob/x", ⟨"bob"⟩, "x", "https://github.com/bob/x",
    ⟨2021, 1, 1, 0, 0, 0⟩⟩⟩

/-- A third descriptor for the driver batch. -/
def wExploitC : Exploit :=
  ⟨⟨.int 2022, .int 3⟩, ⟨"carol/y", ⟨"carol"⟩, "y", "https://github.com/carol/y",
    ⟨2022, 1, 1, 0, 0, 0⟩⟩⟩

/-- A filesystem with cached sidecars for all three batch descriptors. -/
def wFs3 : FS := fun q =>
  if q = "2021/CVE-2021-34527/.acme.branch" then some ⟨"main\n", 0, 0⟩
  else if q = "2021/CVE-2021-0002/.bob.branch" then some ⟨"dev\n", 0, 0⟩
  else if q = "2022/CVE-2022-0003/.carol.branch" then some ⟨"main\n", 0, 0⟩
  else none

/-- Batch pair 1: fetches cleanly. -/
def wP1 : PocInput := ⟨wExploit, "x", ⟨200, ["Z1"], false⟩, false⟩

/-- Batch pair 2: its network transfer fails to connect. -/
def wP2 : PocInput := ⟨wExploitB, "x", ⟨200, ["Z2"], false⟩, true⟩

/-- Batch pair 3: fetches cleanly. -/
def wP3 : PocInput := ⟨wExploitC, "x", ⟨200, ["Z3"], false⟩, false⟩

/-! ### Helper lemmas -/

lemma fsWrite_at (fs : FS) (p : String) (f : FileRec) : fsWrite fs p f p = some f := by
  simp [fsWrite]

lemma fsWrite_at_ne (fs : FS) (p : String) (f : FileRec) (q : String) (h : q ≠ p) :
    fsWrite fs p f q = fs q := by
  simp [fsWrite, h]

lemma fsWrite_write_same (fs : FS) (p : String) (a b : FileRec) :
    fsWrite (fsWrite fs p a) p b = fsWrite fs p b := by
  funext q
  by_cases h : q = p <;> simp [fsWrite, h]

lemma os_utime_of_write (fs : FS) (p : String) (f : FileRec) (t : Int) :
    os_utime (fsWrite fs p f) p t = .ok (fsWrite fs p ⟨f.content, t, t⟩) := by
  have h1 : (fsWrite fs p f) p = some f := fsWrite_at fs p f
  simp [os_utime, h1, fsWrite_write_same]

lemma needsRefreshCheck_iff (fs : FS) (out : String) (u : Int) :
    needsRefreshCheck fs out u = true
      ↔ fs out = none ∨ ∃ f, fs out = some f ∧ f.mtime < u := by
  unfold needsRefreshCheck
  cases h : fs out <;> simp [h]

lemma get_branch_name_cached (e : Exploit) (fs : FS) (text : String) (now : Int)
    (side : String) (sf : FileRec)
    (hs : e.cached_branchname = .ok side) (hc : fs side = some sf) :
    e.get_branch_name fs text now = ⟨.ok (firstLineTrim sf.content), fs, false⟩ := by
  simp [Exploit.get_branch_name, hs, hc]

lemma get_branch_name_miss_webFetched (e : Exploit) (fs : FS) (text : String) (now : Int)
    (side : String) (hs : e.cached_branchname = .ok side) (hc : fs side = none) :
    (e.get_branch_name fs text now).webFetched = true := by
  simp only [Exploit.get_branch_name, hs, hc]
  cases hw : get_branch_name_from_github e.login e.data.name text <;> simp [hw]

lemma download_zip_webFetched (e : Exploit) (fs : FS) (out text : String) (resp : ZipResponse)
    (connectFails : Bool) (now : Int) :
    (e.download_zip fs out text resp connectFails now).webFetched
      = (e.get_branch_name fs text now).webFetched := by
  unfold Exploit.download_zip
  cases hg : (e.get_branch_name fs text now).result with
  | ok br =>
    cases connectFails with
    | true => simp [hg]
    | false =>
      cases hb : resp.breaks with
      | true => simp [hg, hb]
      | false =>
        cases hu : os_utime (fsWrite (e.get_branch_name fs text now).fs out
            ⟨String.join resp.chunks, now, now⟩) out e.updated_at with
        | ok fs2 => simp [hg, hb, hu]
        | error err => simp [hg, hb, hu]
  | error err =>
    cases err with
    | emptyRepository =>
      cases hu : os_utime (fsWrite (e.get_branch_name fs text now).fs out
          ⟨"Empty repository", now, now⟩) out e.updated_at with
      | ok fs2 => simp [hg, hu]
      | error err2 => simp [hg, hu]
    | valueError => simp [hg]
    | fileNotFound => simp [hg]
    | runtimeError => simp [hg]
    | transferError => simp [hg]

lemma download_zip_ok_stamp (e : Exploit) (fs : FS) (out text : String) (resp : ZipResponse)
    (connectFails : Bool) (now : Int)
    (h : (e.download_zip fs out text resp connectFails now).result = .ok ()) :
    ∃ c, (e.download_zip fs out text resp connectFails now).fs out
      = some ⟨c, e.updated_at, e.updated_at⟩ := by
  cases hg : (e.get_branch_name fs text now).result with
  | ok br =>
    cases connectFails with
    | true => simp [Exploit.download_zip, hg] at h
    | false =>
      cases hb : resp.breaks with
      | true => simp [Exploit.download_zip, hg, hb] at h
      | false =>
        refine ⟨String.join resp.chunks, ?_⟩
        simp [Exploit.download_zip, hg, hb, os_utime_of_write, fsWrite_at]
  | error err =>
    cases err with
    | emptyRepository =>
      refine ⟨"Empty repository", ?_⟩
      simp [Exploit.download_zip, hg, os_utime_of_write, fsWrite_at]
    | valueError => simp [Exploit.download_zip, hg] at h
    | fileNotFound => simp [Exploit.download_zip, hg] at h
    | runtimeError => simp [Exploit.download_zip, hg] at h
    | transferError => simp [Exploit.download_zip, hg] at h

/-! ### Claim theorems -/

/-- C1: the claimed identifier round-trip `CVE.fromstr (str (CVE year id)) = CVE year id`
fails on the code at year 2021, id 34527: formatting the int-typed CVE
yields `CVE-2021-34527`, but `fromstr` builds the CVE from the regex group
dictionary and therefore returns str-typed fields, which dataclass equality
distinguishes from the original int fields (the dataclass itself declares
`int` fields, and `str()` of the parsed identifier even raises
`ValueError`). -/
theorem cve_roundtrip_violated :
    CVE.toStr ⟨.int 2021, .int 34527⟩ = .ok "CVE-2021-34527"
    ∧ CVE.fromstr "CVE-2021-34527" = .ok ⟨.str "2021", .str "34527"⟩
    ∧ CVE.mk (.str "2021") (.str "34527") ≠ CVE.mk (.int 2021) (.int 34527)
    ∧ CVE.toStr ⟨.str "2021", .str "34527"⟩ = .error .valueError := by
  refine ⟨by decide, by decide, by decide, by decide⟩

/-- C2: for a descriptor whose archive path computes to `out`, `refresh_zip`
downloads exactly when no file exists at `out` or the file's mtime is
strictly earlier than the descriptor's `updated_at`; in particular an
exactly-equal mtime causes no download. -/
theorem refresh_zip_freshness_decision (e : Exploit) (fs : FS) (text : String)
    (resp : ZipResponse) (connectFails : Bool) (now : Int) (out : String)
    (hout : e.output_file = .ok out) :
    ((e.refresh_zip fs text resp connectFails now).downloaded = true
      ↔ fs out = none ∨ ∃ f, fs out = some f ∧ f.mtime < e.updated_at)
    ∧ ∀ f, fs out = some f → f.mtime = e.updated_at
      → (e.refresh_zip fs text resp connectFails now).downloaded = false := by
  have hdl : (e.refresh_zip fs text resp connectFails now).downloaded
      = needsRefreshCheck fs out e.updated_at := by
    cases hn : needsRefreshCheck fs out e.updated_at with
    | true => simp [Exploit.refresh_zip, hout, hn]
    | false => simp [Exploit.refresh_zip, hout, hn]
  constructor
  · rw [hdl]
    exact needsRefreshCheck_iff fs out e.updated_at
  · intro f hf hm
    rw [hdl]
    simp [needsRefreshCheck, hf, hm]

/-- C2 witness: with an archive whose mtime equals `updated_at` exactly, no
download happens. -/
theorem refresh_zip_freshness_decision_wit :
    (wExploit.refresh_zip wFsEqual "page" ⟨200, ["z"], false⟩ false 7).downloaded = false :=
  (refresh_zip_freshness_decision wExploit wFsEqual "page" ⟨200, ["z"], false⟩ false 7 wOut
    (by decide)).2 ⟨"zipdata", 1625140800, 1625140800⟩ (by decide) (by decide)

lemma digitRun_of_digits (y z : List Char) (hy : ∀ c ∈ y, c.isDigit) :
    digitRun (y ++ '-' :: z) = (y, '-' :: z) := by
  induction y with
  | nil => simp [digitRun, show ('-').isDigit = false from rfl]
  | cons c cs ih =>
    have hc : c.isDigit := hy c (by simp)
    have ih2 := ih (fun d hd => hy d (by simp [hd]))
    simp [digitRun, hc, ih2]

/-- C8 counterexample: the input `xCVE-2021-0001` contains the pattern
`CVE-<digits>-<digits>` at position 1, yet `CVE.fromstr` raises
`ValueError`, because the compiled regex is anchored with `^` and
`re.search` can therefore only match at the start of the string. -/
theorem fromstr_not_unanchored :
    cvePatternSomewhere "xCVE-2021-0001" = true
    ∧ CVE.fromstr "xCVE-2021-0001" = .error .valueError := by
  refine ⟨by decide, by decide⟩

/-- C8 (amended): `CVE.fromstr` raises the malformed-identifier error
exactly when the pattern `CVE-<digits>-<digits>` is absent at the start of
the string (the regex is anchored), and trailing content after the two
digit groups is tolerated: any string starting with the pattern parses
successfully whatever follows. -/
theorem fromstr_error_iff_anchored (s : String) :
    (CVE.fromstr s = .error .valueError ↔ matchCVEAt s.data = none)
    ∧ ∀ (y i rest : List Char), y ≠ [] → i ≠ [] → (∀ c ∈ y, c.isDigit)
      → (∀ c ∈ i, c.isDigit)
      → ∃ c, CVE.fromstr
          (String.mk ('C' :: 'V' :: 'E' :: '-' :: (y ++ '-' :: (i ++ rest)))) = .ok c := by
  constructor
  · cases hm : matchCVEAt s.data with
    | some g => simp [CVE.fromstr, hm]
    | none => simp [CVE.fromstr, hm]
  · intro y i rest hy hi hdy hdi
    cases i with
    | nil => exact absurd rfl hi
    | cons a as =>
      have ha : a.isDigit := hdi a (by simp)
      refine ⟨⟨.str (String.mk y), .str (String.mk (a :: (digitRun (as ++ rest)).1))⟩, ?_⟩
      have h1 : digitRun (y ++ '-' :: (a :: (as ++ rest))) = (y, '-' :: (a :: (as ++ rest))) :=
        digitRun_of_digits y (a :: (as ++ rest)) hdy
      have h2 : digitRun (a :: (as ++ rest))
          = (a :: (digitRun (as ++ rest)).1, (digitRun (as ++ rest)).2) := by
        simp [digitRun, ha]
      simp [CVE.fromstr, matchCVEAt, h1, h2, hy]

/-- C8 amended-claim witness: a concrete identifier with trailing content
parses successfully. -/
theorem fromstr_error_iff_anchored_wit :
    ∃ c, CVE.fromstr
      (String.mk ('C' :: 'V' :: 'E' :: '-' ::
        (['2', '0', '2', '1'] ++ '-' :: (['0', '0', '0', '1'] ++ ['.', 'j'])))) = .ok c :=
  (fromstr_error_iff_anchored "").2 ['2', '0', '2', '1'] ['0', '0', '0', '1'] ['.', 'j']
    (by decide) (by decide) (by decide) (by decide)

/-- C4: whenever `download_zip` returns successfully — on the normal path
and on the empty-repository path alike — the archive at the destination has
both its mtime and its atime equal to the descriptor's `updated_at` Unix
timestamp. -/
theorem download_zip_stamps_times (e : Exploit) (fs : FS) (out text : String)
    (resp : ZipResponse) (connectFails : Bool) (now : Int)
    (h : (e.download_zip fs out text resp connectFails now).result = .ok ()) :
    ∃ f, (e.download_zip fs out text resp connectFails now).fs out = some f
      ∧ f.mtime = e.updated_at ∧ f.atime = e.updated_at := by
  obtain ⟨c, hc⟩ := download_zip_ok_stamp e fs out text resp connectFails now h
  exact ⟨⟨c, e.updated_at, e.updated_at⟩, hc, rfl, rfl⟩

/-- C4 witness: a concrete successful download stamps both times. -/
theorem download_zip_stamps_times_wit :
    ∃ f, (wExploit.download_zip wFsEmpty wOut wPage ⟨200, ["zipdata"], false⟩ false 7).fs wOut
      = some f ∧ f.mtime = wExploit.updated_at ∧ f.atime = wExploit.updated_at :=
  download_zip_stamps_times wExploit wFsEmpty wOut wPage ⟨200, ["zipdata"], false⟩ false 7
    (by decide)

/-- C5: when branch resolution raises `EmptyRepository`, `download_zip`
catches it, writes the literal placeholder `Empty repository` to the
destination, stamps the file's times with the descriptor's `updated_at`,
and returns normally — the exception does not escape as a failure of the
pair. -/
theorem download_zip_empty_repository (e : Exploit) (fs : FS) (out text : String)
    (resp : ZipResponse) (connectFails : Bool) (now : Int)
    (hbr : (e.get_branch_name fs text now).result = .error .emptyRepository) :
    (e.download_zip fs out text resp connectFails now).result = .ok ()
    ∧ (e.download_zip fs out text resp connectFails now).fs out
      = some ⟨"Empty repository", e.updated_at, e.updated_at⟩ := by
  constructor <;> simp [Exploit.download_zip, hbr, os_utime_of_write, fsWrite_at]

/-- C5 witness: a page with the empty-repository marker yields the
placeholder archive, stamped, with a normal return. -/
theorem download_zip_empty_repository_wit :
    (wExploit.download_zip wFsEmpty wOut "This repository is empty." ⟨200, [], false⟩ false
      7).result = .ok ()
    ∧ (wExploit.download_zip wFsEmpty wOut "This repository is empty." ⟨200, [], false⟩ false
      7).fs wOut = some ⟨"Empty repository", wExploit.updated_at, wExploit.updated_at⟩ :=
  download_zip_empty_repository wExploit wFsEmpty wOut "This repository is empty."
    ⟨200, [], false⟩ false 7 (by decide)

lemma needsRefreshCheck_false (fs : FS) (out : String) (u : Int)
    (h : needsRefreshCheck fs out u = false) :
    ∃ f, fs out = some f ∧ ¬ f.mtime < u := by
  unfold needsRefreshCheck at h
  cases hf : fs out with
  | none => rw [hf] at h; simp at h
  | some f =>
    rw [hf] at h
    simp only [decide_eq_false_iff_not] at h
    exact ⟨f, rfl, h⟩

/-- C3: after one successful `refresh_zip` run, a second run of the same
descriptor (unchanged `updated_at`) is a no-op: it performs no download and
returns the filesystem unchanged, because the first run either found the
archive fresh already or stamped its mtime to exactly `updated_at`. -/
theorem refresh_zip_idempotent (e : Exploit) (fs : FS) (text text2 : String)
    (resp resp2 : ZipResponse) (cf cf2 : Bool) (now now2 : Int)
    (h : (e.refresh_zip fs text resp cf now).result = .ok ()) :
    e.refresh_zip (e.refresh_zip fs text resp cf now).fs text2 resp2 cf2 now2
      = ⟨.ok (), (e.refresh_zip fs text resp cf now).fs, false, false⟩ := by
  cases ho : e.output_file with
  | error err =>
    rw [show e.refresh_zip fs text resp cf now = ⟨.error err, fs, false, false⟩ from by
      simp [Exploit.refresh_zip, ho]] at h
    simp at h
  | ok out =>
    cases hn : needsRefreshCheck fs out e.updated_at with
    | false =>
      have hr : e.refresh_zip fs text resp cf now = ⟨.ok (), fs, false, false⟩ := by
        simp [Exploit.refresh_zip, ho, hn]
      rw [hr]
      simp [Exploit.refresh_zip, ho, hn]
    | true =>
      have hr : e.refresh_zip fs text resp cf now
          = ⟨(e.download_zip fs out text resp cf now).result,
             (e.download_zip fs out text resp cf now).fs, true,
             (e.download_zip fs out text resp cf now).webFetched⟩ := by
        simp [Exploit.refresh_zip, ho, hn]
      rw [hr] at h ⊢
      obtain ⟨c, hc⟩ := download_zip_ok_stamp e fs out text resp cf now h
      simp [Exploit.refresh_zip, ho, needsRefreshCheck, hc]

/-- C3 witness: a concrete stale archive is refreshed once; the second run
changes nothing and downloads nothing. -/
theorem refresh_zip_idempotent_wit :
    wExploit.refresh_zip (wExploit.refresh_zip wFsPrior "x" ⟨200, ["Z"], false⟩ false 7).fs
      "y" ⟨500, ["W"], true⟩ true 9
      = ⟨.ok (), (wExploit.refresh_zip wFsPrior "x" ⟨200, ["Z"], false⟩ false 7).fs,
         false, false⟩ :=
  refresh_zip_idempotent wExploit wFsPrior "x" "y" ⟨200, ["Z"], false⟩ ⟨500, ["W"], true⟩
    false true 7 9 (by decide)

/-- C6 counterexample: a transfer that fails after yielding one chunk
leaves the destination itself holding the truncated partial body `PART`
(the prior archive content `OLDZIP` is destroyed), because `download_zip`
opens the final destination directly and streams into it, with no
temporary file and no rename. -/
theorem download_zip_truncates_cex :
    (wExploit.download_zip wFsPrior wOut wPage ⟨200, ["PART"], true⟩ false 77).result
      = .error .transferError
    ∧ (wExploit.download_zip wFsPrior wOut wPage ⟨200, ["PART"], true⟩ false 77).fs wOut
      = some ⟨"PART", 77, 77⟩
    ∧ wFsPrior wOut = some ⟨"OLDZIP", 50, 50⟩ := by
  refine ⟨by decide, by decide, by decide⟩

/-- C6 (amended): on a transfer failure partway, `download_zip` has already
truncated and rewritten the destination in place: the destination file is
left containing exactly the chunks received before the failure (prior
content overwritten), its times are not stamped with `updated_at`, and the
transfer error propagates to the driver. -/
theorem download_zip_partial_write (e : Exploit) (fs : FS) (out side text : String)
    (sf : FileRec) (resp : ZipResponse) (now : Int)
    (hs : e.cached_branchname = .ok side) (hc : fs side = some sf)
    (hb : resp.breaks = true) :
    (e.download_zip fs out text resp false now).result = .error .transferError
    ∧ (e.download_zip fs out text resp false now).fs out
      = some ⟨String.join resp.chunks, now, now⟩ := by
  have hg := get_branch_name_cached e fs text now side sf hs hc
  constructor <;> simp [Exploit.download_zip, hg, hb, fsWrite_at]

/-- C6 amended-claim witness: the concrete broken transfer leaves the
partial body at the destination with unstamped times. -/
theorem download_zip_partial_write_wit :
    (wExploit.download_zip wFsPrior wOut "page" ⟨200, ["PART"], true⟩ false 77).result
      = .error .transferError
    ∧ (wExploit.download_zip wFsPrior wOut "page" ⟨200, ["PART"], true⟩ false 77).fs wOut
      = some ⟨String.join ["PART"], 77, 77⟩ :=
  download_zip_partial_write wExploit wFsPrior wOut wSide "page" ⟨"main\n", 0, 0⟩
    ⟨200, ["PART"], true⟩ 77 (by decide) (by decide) rfl

/-- C9: `download_zip` never inspects the HTTP status of the archive GET:
on the normal path the result is identical for any status code, whatever
body the response carries is written verbatim to the destination and
stamped with `updated_at`, and a subsequent freshness check then treats
that content as a fresh archive (no further download). -/
theorem download_zip_ignores_status (e : Exploit) (fs : FS) (out text : String)
    (resp : ZipResponse) (now : Int) (br : String)
    (ho : e.output_file = .ok out)
    (hbr : (e.get_branch_name fs text now).result = .ok br)
    (hb : resp.breaks = false) :
    (e.download_zip fs out text resp false now).result = .ok ()
    ∧ (e.download_zip fs out text resp false now).fs out
      = some ⟨String.join resp.chunks, e.updated_at, e.updated_at⟩
    ∧ (∀ s2 : Nat, e.download_zip fs out text ⟨s2, resp.chunks, false⟩ false now
      = e.download_zip fs out text resp false now)
    ∧ ∀ text2 resp2 cf2 now2,
      (e.refresh_zip (e.download_zip fs out text resp false now).fs text2 resp2 cf2
        now2).downloaded = false := by
  have hd : e.download_zip fs out text resp false now
      = ⟨.ok (), fsWrite (e.get_branch_name fs text now).fs out
          ⟨String.join resp.chunks, e.updated_at, e.updated_at⟩,
         (e.get_branch_name fs text now).webFetched⟩ := by
    simp [Exploit.download_zip, hbr, hb, os_utime_of_write]
  refine ⟨by rw [hd], by rw [hd]; exact fsWrite_at _ _ _, ?_, ?_⟩
  · intro s2
    rw [hd]
    simp [Exploit.download_zip, hbr, os_utime_of_write]
  · intro text2 resp2 cf2 now2
    rw [hd]
    simp [Exploit.refresh_zip, ho, needsRefreshCheck, fsWrite_at]

/-- C9 witness: with a concrete cached branch and a body standing for an
error page, the download succeeds, writes the body, and is
status-independent. -/
theorem download_zip_ignores_status_wit :
    (wExploit.download_zip wFsPrior wOut "x" ⟨404, ["NotFoundPage"], false⟩ false 9).result
      = .ok ()
    ∧ (wExploit.download_zip wFsPrior wOut "x" ⟨404, ["NotFoundPage"], false⟩ false 9).fs wOut
      = some ⟨String.join ["NotFoundPage"], wExploit.updated_at, wExploit.updated_at⟩
    ∧ (∀ s2 : Nat, wExploit.download_zip wFsPrior wOut "x" ⟨s2, ["NotFoundPage"], false⟩
        false 9
      = wExploit.download_zip wFsPrior wOut "x" ⟨404, ["NotFoundPage"], false⟩ false 9)
    ∧ ∀ text2 resp2 cf2 now2,
      (wExploit.refresh_zip
        (wExploit.download_zip wFsPrior wOut "x" ⟨404, ["NotFoundPage"], false⟩ false 9).fs
        text2 resp2 cf2 now2).downloaded = false :=
  download_zip_ignores_status wExploit wFsPrior wOut "x" ⟨404, ["NotFoundPage"], false⟩ 9
    "main" (by decide) (by decide) rfl

/-- C10: when the sidecar cache is absent and the page scrape raises
`EmptyRepository`, `get_branch_name` writes no sidecar file; after
`download_zip` finishes the empty-repository path the sidecar is still
absent, so any later refresh of the same repository that the freshness
check judges stale (here: a descriptor with a newer `updated_at`) fetches
the web page again instead of hitting the cache. -/
theorem empty_repository_no_sidecar (e e2 : Exploit) (fs : FS) (out side text : String)
    (resp : ZipResponse) (connectFails : Bool) (now : Int)
    (hs : e.cached_branchname = .ok side) (hnc : fs side = none)
    (hweb : get_branch_name_from_github e.login e.data.name text = .error .emptyRepository)
    (hne : side ≠ out)
    (ho2 : e2.output_file = .ok out) (hs2 : e2.cached_branchname = .ok side)
    (hstale : e.updated_at < e2.updated_at) :
    e.get_branch_name fs text now = ⟨.error .emptyRepository, fs, true⟩
    ∧ (e.download_zip fs out text resp connectFails now).fs side = none
    ∧ ∀ text2 resp2 cf2 now2,
      (e2.refresh_zip (e.download_zip fs out text resp connectFails now).fs text2 resp2 cf2
        now2).webFetched = true := by
  have hg : e.get_branch_name fs text now = ⟨.error .emptyRepository, fs, true⟩ := by
    simp [Exploit.get_branch_name, hs, hnc, hweb]
  have hd : e.download_zip fs out text resp connectFails now
      = ⟨.ok (), fsWrite fs out ⟨"Empty repository", e.updated_at, e.updated_at⟩, true⟩ := by
    simp [Exploit.download_zip, hg, os_utime_of_write]
  have hside : (fsWrite fs out ⟨"Empty repository", e.updated_at, e.updated_at⟩) side = none := by
    rw [fsWrite_at_ne _ _ _ _ hne]
    exact hnc
  refine ⟨hg, by rw [hd]; exact hside, ?_⟩
  intro text2 resp2 cf2 now2
  rw [hd]
  have hneeds : needsRefreshCheck
      (fsWrite fs out ⟨"Empty repository", e.updated_at, e.updated_at⟩) out e2.updated_at
      = true := by
    simp [needsRefreshCheck, fsWrite_at, hstale]
  have hwf := get_branch_name_miss_webFetched e2
    (fsWrite fs out ⟨"Empty repository", e.updated_at, e.updated_at⟩) text2 now2 side hs2 hside
  simp [Exploit.refresh_zip, ho2, hneeds, download_zip_webFetched, hwf]

/-- C10 witness: the concrete empty repository leaves no sidecar and a
later stale refresh scrapes the web again. -/
theorem empty_repository_no_sidecar_wit :
    wExploit.get_branch_name wFsEmpty "This repository is empty." 7
      = ⟨.error .emptyRepository, wFsEmpty, true⟩
    ∧ (wExploit.download_zip wFsEmpty wOut "This repository is empty." ⟨200, [], false⟩
        false 7).fs wSide = none
    ∧ ∀ text2 resp2 cf2 now2,
      (wExploit2.refresh_zip
        (wExploit.download_zip wFsEmpty wOut "This repository is empty." ⟨200, [], false⟩
          false 7).fs text2 resp2 cf2 now2).webFetched = true :=
  empty_repository_no_sidecar wExploit wExploit2 wFsEmpty wOut wSide
    "This repository is empty." ⟨200, [], false⟩ false 7 (by decide) (by decide) (by decide)
    (by decide) (by decide) (by decide) (by decide)

lemma refresh_zip_clean (e : Exploit) (fs : FS) (text : String) (resp : ZipResponse)
    (now : Int) (out side : String) (sf : FileRec)
    (ho : e.output_file = .ok out) (hs : e.cached_branchname = .ok side)
    (hc : fs side = some sf) (hn : fs out = none) (hb : resp.breaks = false) :
    e.refresh_zip fs text resp false now
      = ⟨.ok (), fsWrite fs out ⟨String.join resp.chunks, e.updated_at, e.updated_at⟩,
         true, false⟩ := by
  have hg := get_branch_name_cached e fs text now side sf hs hc
  have hneeds : needsRefreshCheck fs out e.updated_at = true := by
    simp [needsRefreshCheck, hn]
  simp [Exploit.refresh_zip, ho, hneeds, Exploit.download_zip, hg, hb, os_utime_of_write]

lemma refresh_zip_transfer_fail (e : Exploit) (fs : FS) (text : String) (resp : ZipResponse)
    (now : Int) (out side : String) (sf : FileRec)
    (ho : e.output_file = .ok out) (hs : e.cached_branchname = .ok side)
    (hc : fs side = some sf) (hn : fs out = none) :
    e.refresh_zip fs text resp true now = ⟨.error .transferError, fs, true, false⟩ := by
  have hg := get_branch_name_cached e fs text now side sf hs hc
  have hneeds : needsRefreshCheck fs out e.updated_at = true := by
    simp [needsRefreshCheck, hn]
  simp [Exploit.refresh_zip, ho, hneeds, Exploit.download_zip, hg]

lemma driverStep_ok (fs : FS) (p : PocInput) (now : Int) (fs2 : FS) (dl wf : Bool)
    (h : p.e.refresh_zip fs p.text p.resp p.connectFails now = ⟨.ok (), fs2, dl, wf⟩) :
    driverStep fs p now = (fs2, false) := by
  simp [driverStep, h]

lemma driverStep_error (fs : FS) (p : PocInput) (now : Int) (err : PyErr) (fs2 : FS)
    (dl wf : Bool)
    (h : p.e.refresh_zip fs p.text p.resp p.connectFails now = ⟨.error err, fs2, dl, wf⟩) :
    driverStep fs p now = (fs2, true) := by
  simp [driverStep, h]

/-- C7: in a batch of three pairs where the middle pair's transfer fails,
the driver loop catches the exception, logs it (`true` in the middle of the
per-pair flag list), continues with the next pair, the first and third
pairs still produce their stamped archives, and the process exits with
code 0. -/
theorem driver_failure_isolation (fs : FS) (now : Int) (p1 p2 p3 : PocInput)
    (out1 side1 out2 side2 out3 side3 : String) (sf1 sf2 sf3 : FileRec)
    (h1o : p1.e.output_file = .ok out1) (h1s : p1.e.cached_branchname = .ok side1)
    (h1c : fs side1 = some sf1) (h1n : fs out1 = none)
    (h1cf : p1.connectFails = false) (h1b : p1.resp.breaks = false)
    (h2o : p2.e.output_file = .ok out2) (h2s : p2.e.cached_branchname = .ok side2)
    (h2c : fs side2 = some sf2) (h2n : fs out2 = none) (h2cf : p2.connectFails = true)
    (h3o : p3.e.output_file = .ok out3) (h3s : p3.e.cached_branchname = .ok side3)
    (h3c : fs side3 = some sf3) (h3n : fs out3 = none)
    (h3cf : p3.connectFails = false) (h3b : p3.resp.breaks = false)
    (hd21 : side2 ≠ out1) (hd22 : out2 ≠ out1)
    (hd31 : side3 ≠ out1) (hd32 : out3 ≠ out1) :
    (mainRun true fs [p1, p2, p3] now).2.1 = [false, true, false]
    ∧ (mainRun true fs [p1, p2, p3] now).2.2 = 0
    ∧ (mainRun true fs [p1, p2, p3] now).1 out1
      = some ⟨String.join p1.resp.chunks, p1.e.updated_at, p1.e.updated_at⟩
    ∧ (mainRun true fs [p1, p2, p3] now).1 out3
      = some ⟨String.join p3.resp.chunks, p3.e.updated_at, p3.e.updated_at⟩ := by
  have hr1 : p1.e.refresh_zip fs p1.text p1.resp p1.connectFails now
      = ⟨.ok (), fsWrite fs out1
          ⟨String.join p1.resp.chunks, p1.e.updated_at, p1.e.updated_at⟩, true, false⟩ := by
    rw [h1cf]
    exact refresh_zip_clean p1.e fs p1.text p1.resp now out1 side1 sf1 h1o h1s h1c h1n h1b
  have hstep1 := driverStep_ok fs p1 now _ _ _ hr1
  have h2c1 : (fsWrite fs out1
      ⟨String.join p1.resp.chunks, p1.e.updated_at, p1.e.updated_at⟩) side2 = some sf2 := by
    rw [fsWrite_at_ne _ _ _ _ hd21]; exact h2c
  have h2n1 : (fsWrite fs out1
      ⟨String.join p1.resp.chunks, p1.e.updated_at, p1.e.updated_at⟩) out2 = none := by
    rw [fsWrite_at_ne _ _ _ _ hd22]; exact h2n
  have hr2 : p2.e.refresh_zip (fsWrite fs out1
        ⟨String.join p1.resp.chunks, p1.e.updated_at, p1.e.updated_at⟩)
      p2.text p2.resp p2.connectFails now
      = ⟨.error .transferError, fsWrite fs out1
          ⟨String.join p1.resp.chunks, p1.e.updated_at, p1.e.updated_at⟩, true, false⟩ := by
    rw [h2cf]
    exact refresh_zip_transfer_fail p2.e _ p2.text p2.resp now out2 side2 sf2 h2o h2s h2c1 h2n1
  have hstep2 := driverStep_error _ p2 now _ _ _ _ hr2
  have h3c1 : (fsWrite fs out1
      ⟨String.join p1.resp.chunks, p1.e.updated_at, p1.e.updated_at⟩) side3 = some sf3 := by
    rw [fsWrite_at_ne _ _ _ _ hd31]; exact h3c
  have h3n1 : (fsWrite fs out1
      ⟨String.join p1.resp.chunks, p1.e.updated_at, p1.e.updated_at⟩) out3 = none := by
    rw [fsWrite_at_ne _ _ _ _ hd32]; exact h3n
  have hr3 : p3.e.refresh_zip (fsWrite fs out1
        ⟨String.join p1.resp.chunks, p1.e.updated_at, p1.e.updated_at⟩)
      p3.text p3.resp p3.connectFails now
      = ⟨.ok (), fsWrite (fsWrite fs out1
          ⟨String.join p1.resp.chunks, p1.e.updated_at, p1.e.updated_at⟩) out3
          ⟨String.join p3.resp.chunks, p3.e.updated_at, p3.e.updated_at⟩, true, false⟩ := by
    rw [h3cf]
    exact refresh_zip_clean p3.e _ p3.text p3.resp now out3 side3 sf3 h3o h3s h3c1 h3n1 h3b
  have hstep3 := driverStep_ok _ p3 now _ _ _ hr3
  have hmain : mainRun true fs [p1, p2, p3] now
      = (fsWrite (fsWrite fs out1
          ⟨String.join p1.resp.chunks, p1.e.updated_at, p1.e.updated_at⟩) out3
          ⟨String.join p3.resp.chunks, p3.e.updated_at, p3.e.updated_at⟩,
         [false, true, false], 0) := by
    simp [mainRun, processPocs, hstep1, hstep2, hstep3]
  refine ⟨by rw [hmain], by rw [hmain], ?_, ?_⟩
  · rw [hmain]
    show (fsWrite _ out3 _) out1 = _
    rw [fsWrite_at_ne _ _ _ _ (Ne.symm hd32)]
    exact fsWrite_at _ _ _
  · rw [hmain]
    exact fsWrite_at _ _ _

/-- C7 witness: a concrete three-pair batch with a failing middle pair. -/
theorem driver_failure_isolation_wit :
    (mainRun true wFs3 [wP1, wP2, wP3] 5).2.1 = [false, true, false]
    ∧ (mainRun true wFs3 [wP1, wP2, wP3] 5).2.2 = 0
    ∧ (mainRun true wFs3 [wP1, wP2, wP3] 5).1 "2021/CVE-2021-34527/acme.zip"
      = some ⟨String.join wP1.resp.chunks, wP1.e.updated_at, wP1.e.updated_at⟩
    ∧ (mainRun true wFs3 [wP1, wP2, wP3] 5).1 "2022/CVE-2022-0003/carol.zip"
      = some ⟨String.join wP3.resp.chunks, wP3.e.updated_at, wP3.e.updated_at⟩ :=
  driver_failure_isolation wFs3 5 wP1 wP2 wP3
    "2021/CVE-2021-34527/acme.zip" "2021/CVE-2021-34527/.acme.branch"
    "2021/CVE-2021-0002/bob.zip" "2021/CVE-2021-0002/.bob.branch"
    "2022/CVE-2022-0003/carol.zip" "2022/CVE-2022-0003/.carol.branch"
    ⟨"main\n", 0, 0⟩ ⟨"dev\n", 0, 0⟩ ⟨"main\n", 0, 0⟩
    (by decide) (by decide) (by decide) (by decide) rfl rfl
    (by decide) (by decide) (by decide) (by decide) rfl
    (by decide) (by decide) (by decide) (by decide) rfl rfl
    (by decide) (by decide) (by decide) (by decide)
